import Mathlib

/-!
# Verification of the metrics module (`metrics.rs`)

A shallow embedding of the metrics-collection module: metric handles
(counter / gauge / histogram) for the Prometheus-backed and the no-op
backends, the histogram timer, the default-label merge, registry
construction, and the capability-enforcing registry decorator.

Modelling conventions:
* Rust `HashMap<String, String>` label maps are modelled as association
  lists (`Labels`) with first-binding-wins lookup; the source only ever
  inserts keys that are absent, so insertion is modelled as appending.
* The `u64` counter cell (`AtomicU64`, whose `fetch_add` wraps on
  overflow) is modelled as `Nat` with explicit `% 2 ^ 64`.
* `f64` gauge/histogram values are modelled as exact rationals `ℚ`
  (floating-point rounding is not modelled; no claim here depends on it).
* The ambient execution context (`Context::current()`) is passed as an
  explicit `Option Context` argument, and the monotonic clock
  (`Instant`) as an explicit `Nat` nanosecond timestamp.
* External side effects on the global export sink (the `counter!`,
  `gauge!`, `histogram!`, `describe_*!` macros) are recorded as a
  `List SinkEvent` log; calls to collaborators (the inner registry of
  the decorator, a histogram's `record` seen through `dyn Histogram`)
  are likewise made observable so that "never invoked" is provable.
-/

/-- Label maps: association lists with unique keys (Rust `HashMap<String, String>`).
Lookup takes the first binding; every insertion in the source is guarded by
`contains_key`, so appended bindings never shadow earlier ones. -/
abbrev Labels : Type := List (String × String)

/-- First-binding lookup in a label map (`HashMap::get`). -/
def lookupLabel : Labels → String → Option String
  | [], _ => none
  | (k, v) :: rest, key => if k = key then some v else lookupLabel rest key

/-- `HashMap::contains_key`. -/
def containsKey (l : Labels) (k : String) : Bool :=
  (lookupLabel l k).isSome

/-- The error type used by this module.  The full `ObservabilityError` enum is
defined outside this file; the source constructs exactly these two variants
(`MetricsError` in `PrometheusMetricsRegistry::initialize`, `CapabilityError`
in `CapabilityMetricsRegistry`). -/
inductive ObservabilityError where
  | MetricsError (msg : String)
  | CapabilityError (msg : String)
  deriving DecidableEq, Repr

/-- Modelled from the spec: the error-kind taxonomy of the design
("ConfigurationError (malformed export endpoint), BackendInstallError (export
sink failed to start/install), CapabilityError (caller lacks required
capability), and generic MetricsError wrapping any other backend failure").
The code expresses the first two kinds as `MetricsError` values with
distinguishing message prefixes. -/
inductive ErrorKind where
  | ConfigurationError
  | BackendInstallError
  | CapabilityError
  | MetricsError
  deriving DecidableEq, Repr

/-- Modelled from the spec: classify an `ObservabilityError` into the spec's
error-kind taxonomy, by the message prefixes the source attaches in
`PrometheusMetricsRegistry::initialize`. -/
def ObservabilityError.kind : ObservabilityError → ErrorKind
  | .CapabilityError _ => ErrorKind.CapabilityError
  | .MetricsError m =>
      if ("Invalid Prometheus endpoint:".data).isPrefixOf m.data then
        ErrorKind.ConfigurationError
      else if ("Failed to install Prometheus:".data).isPrefixOf m.data then
        ErrorKind.BackendInstallError
      else ErrorKind.MetricsError

/-- The execution context record, as read by this module: an optional plugin
id (`ctx.plugin_id : Option<String>`).  `Context::current()` is modelled as an
explicit `Option Context` argument. -/
structure Context where
  plugin_id : Option String
  deriving DecidableEq, Repr

/-- The metrics configuration, with the fields this module reads
(`enabled`, `prometheus_enabled`, `prometheus_endpoint`, `default_labels`,
`include_plugin_id`). -/
structure MetricsConfig where
  enabled : Bool
  prometheus_enabled : Bool
  prometheus_endpoint : String
  default_labels : List (String × String)
  include_plugin_id : Bool

/-- Split a character list into the groups separated by ':' (always returns
at least one group). -/
def splitColon : List Char → List (List Char)
  | [] => [[]]
  | c :: rest =>
      match splitColon rest with
      | [] => [[c]]
      | g :: gs => if c = ':' then [] :: g :: gs else (c :: g) :: gs

/-- Parse a decimal port: nonempty, all digits. -/
def parsePort (cs : List Char) : Option Nat :=
  if cs = [] then none
  else if cs.all Char.isDigit then
    some (cs.foldl (fun a c => a * 10 + (c.toNat - 48)) 0)
  else none

/-- Modelled from the spec: the standard library's socket-address parser used
by `initialize` lives outside this repository; the spec describes the endpoint
as "host:port or empty", so a string parses iff it splits as a nonempty host,
one colon, and a decimal port below 65536.  On failure it carries the message
that the formatted parse error holds. -/
def parseSocketAddr (s : String) : Except String (String × Nat) :=
  match splitColon s.data with
  | [host, port] =>
      if host = [] then Except.error "invalid socket address syntax"
      else
        match parsePort port with
        | some p =>
            if p < 65536 then Except.ok (String.mk host, p)
            else Except.error "invalid socket address syntax"
        | none => Except.error "invalid socket address syntax"
  | _ => Except.error "invalid socket address syntax"

/-- Events sent to the process-wide export sink (the `metrics` crate macros). -/
inductive SinkEvent where
  | describeCounter (name description : String)
  | counterIncrement (name : String) (value : Nat)
  | describeGauge (name description : String)
  | gaugeSet (name : String) (value : ℚ)
  | describeHistogram (name description : String)
  | histogramRecord (name : String) (value : ℚ)
  deriving DecidableEq, Repr

/-- `PrometheusMetricsRegistry::add_default_labels`: start from the
caller-supplied labels, insert each configuration default label whose key is
absent, then, when `include_plugin_id` is set and the current context carries
a plugin id and the key "plugin_id" is still absent, insert it. -/
def add_default_labels (config : MetricsConfig) (ctx : Option Context)
    (labels : Labels) : Labels :=
  let labels1 := config.default_labels.foldl
    (fun acc kv => if containsKey acc kv.1 then acc else acc ++ [(kv.1, kv.2)])
    labels
  if config.include_plugin_id then
    match ctx with
    | some c =>
        match c.plugin_id with
        | some plugin_id =>
            if containsKey labels1 "plugin_id" then labels1
            else labels1 ++ [("plugin_id", plugin_id)]
        | none => labels1
    | none => labels1
  else labels1

/-- The plugin id that `add_default_labels` may inject: present exactly when
`include_plugin_id` is set and the current context carries one. -/
def pluginIdOf (config : MetricsConfig) (ctx : Option Context) : Option String :=
  if config.include_plugin_id then ctx.bind fun c => c.plugin_id else none

/-- `PrometheusCounter`: name, description, labels, and the local `AtomicU64`
snapshot value, modelled as a natural number below `2 ^ 64`. -/
structure PrometheusCounter where
  name : String
  description : String
  labels : Labels
  value : Nat
  deriving DecidableEq, Repr

/-- `PrometheusCounter::new`: builds the counter with value 0 and registers
the description with the sink (`describe_counter!`); always returns `Ok`. -/
def PrometheusCounter.new (name description : String) (labels : Labels) :
    Except ObservabilityError PrometheusCounter × List SinkEvent :=
  (Except.ok { name := name, description := description, labels := labels, value := 0 },
   [SinkEvent.describeCounter name description])

/-- `Counter::increment` for `PrometheusCounter`: `AtomicU64::fetch_add`
(wrapping modulo `2 ^ 64`) on the local value, then forwards the increment to
the sink under the counter's name with an empty per-call label list; returns
`Ok(())`. -/
def PrometheusCounter.increment (c : PrometheusCounter) (value : Nat) :
    Except ObservabilityError Unit × PrometheusCounter × List SinkEvent :=
  (Except.ok (),
   { c with value := (c.value + value) % 2 ^ 64 },
   [SinkEvent.counterIncrement c.name value])

/-- Apply a sequence of `increment` calls to a counter, in call order. -/
def applyIncrements : PrometheusCounter → List Nat → PrometheusCounter
  | c, [] => c
  | c, v :: vs => applyIncrements (c.increment v).2.1 vs

/-- `PrometheusGauge`: name, description, labels, and the local `RwLock<f64>`
value, modelled as an exact rational. -/
structure PrometheusGauge where
  name : String
  description : String
  labels : Labels
  value : ℚ
  deriving DecidableEq, Repr

/-- `PrometheusGauge::new`: builds the gauge with value 0.0 and registers the
description with the sink (`describe_gauge!`); always returns `Ok`. -/
def PrometheusGauge.new (name description : String) (labels : Labels) :
    Except ObservabilityError PrometheusGauge × List SinkEvent :=
  (Except.ok { name := name, description := description, labels := labels, value := 0 },
   [SinkEvent.describeGauge name description])

/-- `Gauge::set` for `PrometheusGauge`: writes the local value, forwards a
`set` to the sink; returns `Ok(())`. -/
def PrometheusGauge.set (g : PrometheusGauge) (value : ℚ) :
    Except ObservabilityError Unit × PrometheusGauge × List SinkEvent :=
  (Except.ok (),
   { g with value := value },
   [SinkEvent.gaugeSet g.name value])

/-- `Gauge::increment` for `PrometheusGauge`: adds to the local value under
the write lock, forwards a `set` of the new value to the sink; returns
`Ok(())`. -/
def PrometheusGauge.increment (g : PrometheusGauge) (value : ℚ) :
    Except ObservabilityError Unit × PrometheusGauge × List SinkEvent :=
  (Except.ok (),
   { g with value := g.value + value },
   [SinkEvent.gaugeSet g.name (g.value + value)])

/-- `Gauge::decrement` for `PrometheusGauge`: subtracts from the local value
under the write lock, forwards a `set` of the new value to the sink; returns
`Ok(())`. -/
def PrometheusGauge.decrement (g : PrometheusGauge) (value : ℚ) :
    Except ObservabilityError Unit × PrometheusGauge × List SinkEvent :=
  (Except.ok (),
   { g with value := g.value - value },
   [SinkEvent.gaugeSet g.name (g.value - value)])

/-- `PrometheusHistogram`: stateless identity wrapper (name, description,
labels); the distribution lives entirely in the sink. -/
structure PrometheusHistogram where
  name : String
  description : String
  labels : Labels
  deriving DecidableEq, Repr

/-- `PrometheusHistogram::new`: builds the histogram and registers the
description with the sink (`describe_histogram!`); always returns `Ok`. -/
def PrometheusHistogram.new (name description : String) (labels : Labels) :
    Except ObservabilityError PrometheusHistogram × List SinkEvent :=
  (Except.ok { name := name, description := description, labels := labels },
   [SinkEvent.describeHistogram name description])

/-- `Histogram::record` for `PrometheusHistogram`: forwards the value to the
sink under the histogram's name; returns `Ok(())`. -/
def PrometheusHistogram.record (h : PrometheusHistogram) (value : ℚ) :
    Except ObservabilityError Unit × List SinkEvent :=
  (Except.ok (), [SinkEvent.histogramRecord h.name value])

/-- A histogram as the timer sees it through `Arc<dyn Histogram>`: just its
`record` method.  Invocations of `record` are made observable by the timer
operations below, which log each recorded value. -/
structure DynHistogram where
  record : ℚ → Except ObservabilityError Unit

/-- `Duration::as_secs_f64` on a duration held as `Nat` nanoseconds, as an
exact rational. -/
def durationAsSecs (d : Nat) : ℚ :=
  (d : ℚ) / 1000000000

/-- `HistogramTimer`: a start timestamp and an optional owned reference to
one histogram. -/
structure HistogramTimer where
  start : Nat
  histogram : Option DynHistogram

/-- `HistogramTimer::new`: captures the current time and takes ownership of
one histogram reference. -/
def HistogramTimer.new (now : Nat) (histogram : DynHistogram) : HistogramTimer :=
  { start := now, histogram := some histogram }

/-- `HistogramTimer::stop`: computes elapsed = now − start, takes the
histogram out of the timer's storage, records the elapsed seconds (the `?`
operator propagates a record error), and on success returns the elapsed
duration.  The second component is the timer as it stands when it is dropped
at the end of `stop`; the third logs the `record` invocations performed. -/
def HistogramTimer.stop (t : HistogramTimer) (now : Nat) :
    Except ObservabilityError Nat × HistogramTimer × List ℚ :=
  let elapsed := now - t.start
  match t.histogram with
  | some histogram =>
      (match histogram.record (durationAsSecs elapsed) with
       | Except.ok _ => Except.ok elapsed
       | Except.error e => Except.error e,
       { t with histogram := none },
       [durationAsSecs elapsed])
  | none => (Except.ok elapsed, t, [])

/-- `Drop::drop` for `HistogramTimer`: if the timer still holds a histogram,
take it out and record the elapsed seconds, discarding any record error
(`let _ = ...`); otherwise do nothing. -/
def HistogramTimer.drop (t : HistogramTimer) (now : Nat) :
    HistogramTimer × List ℚ :=
  match t.histogram with
  | some _ =>
      ({ t with histogram := none }, [durationAsSecs (now - t.start)])
  | none => (t, [])

/-- `NoopCounter`: identity only; discards all metrics. -/
structure NoopCounter where
  name : String
  description : String
  labels : Labels
  deriving DecidableEq, Repr

/-- `Counter::increment` for `NoopCounter`: accepted, no effect, `Ok(())`. -/
def NoopCounter.increment (_c : NoopCounter) (_value : Nat) :
    Except ObservabilityError Unit :=
  Except.ok ()

/-- `Counter::value` for `NoopCounter`: always 0. -/
def NoopCounter.val (_c : NoopCounter) : Nat :=
  0

/-- `NoopGauge`: identity only; discards all metrics. -/
structure NoopGauge where
  name : String
  description : String
  labels : Labels
  deriving DecidableEq, Repr

/-- `Gauge::set` for `NoopGauge`: accepted, no effect, `Ok(())`. -/
def NoopGauge.set (_g : NoopGauge) (_value : ℚ) : Except ObservabilityError Unit :=
  Except.ok ()

/-- `Gauge::increment` for `NoopGauge`: accepted, no effect, `Ok(())`. -/
def NoopGauge.increment (_g : NoopGauge) (_value : ℚ) : Except ObservabilityError Unit :=
  Except.ok ()

/-- `Gauge::decrement` for `NoopGauge`: accepted, no effect, `Ok(())`. -/
def NoopGauge.decrement (_g : NoopGauge) (_value : ℚ) : Except ObservabilityError Unit :=
  Except.ok ()

/-- `Gauge::value` for `NoopGauge`: always 0.0. -/
def NoopGauge.val (_g : NoopGauge) : ℚ :=
  0

/-- `NoopHistogram`: identity only; discards all metrics. -/
structure NoopHistogram where
  name : String
  description : String
  labels : Labels
  deriving DecidableEq, Repr

/-- `Histogram::record` for `NoopHistogram`: accepted, no effect, `Ok(())`. -/
def NoopHistogram.record (_h : NoopHistogram) (_value : ℚ) :
    Except ObservabilityError Unit :=
  Except.ok ()

/-- A gauge mutation, for stating facts about arbitrary call sequences. -/
inductive GaugeOp where
  | set (value : ℚ)
  | increment (value : ℚ)
  | decrement (value : ℚ)
  deriving DecidableEq, Repr

/-- Run one mutation on a `NoopGauge`: the result of the call together with
the gauge afterwards (the methods take `&self` and touch nothing). -/
def NoopGauge.apply (g : NoopGauge) : GaugeOp → Except ObservabilityError Unit × NoopGauge
  | GaugeOp.set v => (g.set v, g)
  | GaugeOp.increment v => (g.increment v, g)
  | GaugeOp.decrement v => (g.decrement v, g)

/-- Run a sequence of mutations on a `NoopGauge`, in call order. -/
def NoopGauge.applyAll : NoopGauge → List GaugeOp → NoopGauge
  | g, [] => g
  | g, op :: ops => NoopGauge.applyAll (g.apply op).2 ops

/-- Run one `increment` on a `NoopCounter`: the result of the call together
with the counter afterwards (the method takes `&self` and touches nothing). -/
def NoopCounter.apply (c : NoopCounter) (v : Nat) :
    Except ObservabilityError Unit × NoopCounter :=
  (c.increment v, c)

/-- Run a sequence of `increment` calls on a `NoopCounter`, in call order. -/
def NoopCounter.applyAll : NoopCounter → List Nat → NoopCounter
  | c, [] => c
  | c, v :: vs => NoopCounter.applyAll (c.apply v).2 vs

/-- `NoopMetricsRegistry`. -/
structure NoopMetricsRegistry where
  name : String
  deriving DecidableEq, Repr

/-- `NoopMetricsRegistry::new`. -/
def NoopMetricsRegistry.new : NoopMetricsRegistry :=
  { name := "noop_registry" }

/-- `MetricsRegistry::counter` for the no-op registry: always `Ok`. -/
def NoopMetricsRegistry.counter (_r : NoopMetricsRegistry)
    (name description : String) (labels : Labels) :
    Except ObservabilityError NoopCounter :=
  Except.ok { name := name, description := description, labels := labels }

/-- `MetricsRegistry::gauge` for the no-op registry: always `Ok`. -/
def NoopMetricsRegistry.gauge (_r : NoopMetricsRegistry)
    (name description : String) (labels : Labels) :
    Except ObservabilityError NoopGauge :=
  Except.ok { name := name, description := description, labels := labels }

/-- `MetricsRegistry::histogram` for the no-op registry: always `Ok`. -/
def NoopMetricsRegistry.histogram (_r : NoopMetricsRegistry)
    (name description : String) (labels : Labels) :
    Except ObservabilityError NoopHistogram :=
  Except.ok { name := name, description := description, labels := labels }

/-- `PrometheusMetricsRegistry`: name, the one-shot initialization flag
(`AtomicBool`), and a clone of the configuration. -/
structure PrometheusMetricsRegistry where
  name : String
  initialized : Bool
  config : MetricsConfig

/-- `PrometheusMetricsRegistry::initialize`: idempotent via the flag; when
`prometheus_enabled`, parses a nonempty `prometheus_endpoint` as a socket
address (failure becomes `MetricsError ("Invalid Prometheus endpoint: " ++ e)`)
and installs the exporter (failure becomes
`MetricsError ("Failed to install Prometheus: " ++ e)`).  The outcome of the
external `builder.install()` call is passed in as `installResult`. -/
def PrometheusMetricsRegistry.initialize (r : PrometheusMetricsRegistry)
    (installResult : Except String Unit) :
    Except ObservabilityError PrometheusMetricsRegistry :=
  if r.initialized then Except.ok r
  else
    if r.config.prometheus_enabled then
      match
        (if r.config.prometheus_endpoint = "" then Except.ok ()
         else
           match parseSocketAddr r.config.prometheus_endpoint with
           | Except.error e =>
               Except.error
                 (ObservabilityError.MetricsError ("Invalid Prometheus endpoint: " ++ e))
           | Except.ok _endpoint => Except.ok ()) with
      | Except.error e => Except.error e
      | Except.ok _ =>
          match installResult with
          | Except.error e =>
              Except.error
                (ObservabilityError.MetricsError ("Failed to install Prometheus: " ++ e))
          | Except.ok _ => Except.ok { r with initialized := true }
    else Except.ok { r with initialized := true }

/-- `PrometheusMetricsRegistry::new`: builds the registry record and eagerly
initializes it; an initialization error is fatal to the construction call. -/
def PrometheusMetricsRegistry.new (config : MetricsConfig)
    (installResult : Except String Unit) :
    Except ObservabilityError PrometheusMetricsRegistry :=
  let registry : PrometheusMetricsRegistry :=
    { name := "prometheus_registry", initialized := false, config := config }
  registry.initialize installResult

/-- `MetricsRegistry::counter` for the Prometheus registry: merge default
labels, then construct the counter. -/
def PrometheusMetricsRegistry.counter (r : PrometheusMetricsRegistry)
    (ctx : Option Context) (name description : String) (labels : Labels) :
    Except ObservabilityError PrometheusCounter × List SinkEvent :=
  PrometheusCounter.new name description (add_default_labels r.config ctx labels)

/-- `MetricsRegistry::gauge` for the Prometheus registry: merge default
labels, then construct the gauge. -/
def PrometheusMetricsRegistry.gauge (r : PrometheusMetricsRegistry)
    (ctx : Option Context) (name description : String) (labels : Labels) :
    Except ObservabilityError PrometheusGauge × List SinkEvent :=
  PrometheusGauge.new name description (add_default_labels r.config ctx labels)

/-- `MetricsRegistry::histogram` for the Prometheus registry: merge default
labels, then construct the histogram. -/
def PrometheusMetricsRegistry.histogram (r : PrometheusMetricsRegistry)
    (ctx : Option Context) (name description : String) (labels : Labels) :
    Except ObservabilityError PrometheusHistogram × List SinkEvent :=
  PrometheusHistogram.new name description (add_default_labels r.config ctx labels)

/-- Modelled from the spec: the capability enum of the external capability
module; this module uses only its `Metrics` member. -/
inductive ObservabilityCapability where
  | Metrics
  deriving DecidableEq, Repr

/-- Modelled from the spec: the external capability-checker collaborator,
`check_capability(identity, capability) -> Result<bool>`. -/
def CapabilityChecker : Type :=
  String → ObservabilityCapability → Except ObservabilityError Bool

/-- The caller identity `check_capability` resolves:
`Context::current().and_then(|ctx| ctx.plugin_id).unwrap_or("unknown")`. -/
def resolvePluginId (ctx : Option Context) : String :=
  match ctx.bind fun c => c.plugin_id with
  | some plugin_id => plugin_id
  | none => "unknown"

/-- An inner `MetricsRegistry` as the decorator sees it through
`Box<dyn MetricsRegistry>`: its three creation methods, threaded through an
explicit state `σ` so that invocations (side effects) are observable.  The
handle types `κ`, `γ`, `η` are opaque to the decorator. -/
structure RegistryOps (σ κ γ η : Type) where
  counter : String → String → Labels → σ → Except ObservabilityError κ × σ
  gauge : String → String → Labels → σ → Except ObservabilityError γ × σ
  histogram : String → String → Labels → σ → Except ObservabilityError η × σ

/-- `CapabilityMetricsRegistry`: wraps an inner registry and a capability
checker. -/
structure CapabilityMetricsRegistry (σ κ γ η : Type) where
  inner : RegistryOps σ κ γ η
  checker : CapabilityChecker

/-- `CapabilityMetricsRegistry::check_capability`: resolve the plugin id from
the current context (fallback "unknown") and ask the checker for the
`Metrics` capability. -/
def CapabilityMetricsRegistry.check_capability {σ κ γ η : Type}
    (reg : CapabilityMetricsRegistry σ κ γ η) (ctx : Option Context) :
    Except ObservabilityError Bool :=
  reg.checker (resolvePluginId ctx) ObservabilityCapability.Metrics

/-- `MetricsRegistry::counter` for the decorator: propagate a checker error
(`?`), fail with `CapabilityError` when the check returns false, otherwise
delegate unchanged to the inner registry. -/
def CapabilityMetricsRegistry.counter {σ κ γ η : Type}
    (reg : CapabilityMetricsRegistry σ κ γ η) (ctx : Option Context)
    (name description : String) (labels : Labels) (s : σ) :
    Except ObservabilityError κ × σ :=
  match reg.check_capability ctx with
  | Except.error e => (Except.error e, s)
  | Except.ok false =>
      (Except.error (ObservabilityError.CapabilityError "Missing metrics capability"), s)
  | Except.ok true => reg.inner.counter name description labels s

/-- `MetricsRegistry::gauge` for the decorator: same policy as `counter`. -/
def CapabilityMetricsRegistry.gauge {σ κ γ η : Type}
    (reg : CapabilityMetricsRegistry σ κ γ η) (ctx : Option Context)
    (name description : String) (labels : Labels) (s : σ) :
    Except ObservabilityError γ × σ :=
  match reg.check_capability ctx with
  | Except.error e => (Except.error e, s)
  | Except.ok false =>
      (Except.error (ObservabilityError.CapabilityError "Missing metrics capability"), s)
  | Except.ok true => reg.inner.gauge name description labels s

/-- `MetricsRegistry::histogram` for the decorator: same policy as `counter`. -/
def CapabilityMetricsRegistry.histogram {σ κ γ η : Type}
    (reg : CapabilityMetricsRegistry σ κ γ η) (ctx : Option Context)
    (name description : String) (labels : Labels) (s : σ) :
    Except ObservabilityError η × σ :=
  match reg.check_capability ctx with
  | Except.error e => (Except.error e, s)
  | Except.ok false =>
      (Except.error (ObservabilityError.CapabilityError "Missing metrics capability"), s)
  | Except.ok true => reg.inner.histogram name description labels s

/-- A fresh counter as produced by `PrometheusCounter.new "requests_total"
"Total requests" []`, used as a concrete input below. -/
def pc0 : PrometheusCounter :=
  { name := "requests_total", description := "Total requests", labels := [], value := 0 }

/-- A histogram whose `record` always succeeds. -/
def hOk : DynHistogram :=
  { record := fun _ => Except.ok () }

/-- A histogram whose `record` always fails. -/
def hFail : DynHistogram :=
  { record := fun _ => Except.error (ObservabilityError.MetricsError "record failed") }

/-- A spy inner registry: the threaded state counts how many times any of its
creation methods was invoked. -/
def spyOps : RegistryOps Nat Unit Unit Unit :=
  { counter := fun _ _ _ s => (Except.ok (), s + 1)
    gauge := fun _ _ _ s => (Except.ok (), s + 1)
    histogram := fun _ _ _ s => (Except.ok (), s + 1) }

/-- A capability registry whose checker denies every caller. -/
def regDeny : CapabilityMetricsRegistry Nat Unit Unit Unit :=
  { inner := spyOps, checker := fun _ _ => Except.ok false }

/-- A capability registry whose checker itself fails. -/
def regErr : CapabilityMetricsRegistry Nat Unit Unit Unit :=
  { inner := spyOps
    checker := fun _ _ => Except.error (ObservabilityError.MetricsError "checker failed") }

/-- A capability registry whose checker allows every caller. -/
def regAllow : CapabilityMetricsRegistry Nat Unit Unit Unit :=
  { inner := spyOps, checker := fun _ _ => Except.ok true }

/-- A configuration whose Prometheus endpoint is a malformed network-address
string. -/
def cfgBadEndpoint : MetricsConfig :=
  { enabled := true
    prometheus_enabled := true
    prometheus_endpoint := "not-an-address"
    default_labels := []
    include_plugin_id := false }

theorem lookupLabel_append (l1 l2 : Labels) (k : String) :
    lookupLabel (l1 ++ l2) k =
      match lookupLabel l1 k with
      | some v => some v
      | none => lookupLabel l2 k := by
  induction l1 with
  | nil => simp [lookupLabel]
  | cons kv rest ih =>
      obtain ⟨k0, v0⟩ := kv
      by_cases h : k0 = k
      · simp [lookupLabel, h]
      · simp [lookupLabel, h, ih]

theorem mergeDefaults_lookup (ds : List (String × String)) (acc : Labels) (k : String) :
    lookupLabel
      (List.foldl
        (fun acc kv => if containsKey acc kv.1 then acc else acc ++ [(kv.1, kv.2)])
        acc ds) k =
      match lookupLabel acc k with
      | some v => some v
      | none => lookupLabel ds k := by
  induction ds generalizing acc with
  | nil => cases h : lookupLabel acc k <;> simp [lookupLabel, h]
  | cons kv rest ih =>
      obtain ⟨k0, v0⟩ := kv
      simp only [List.foldl]
      by_cases hc : containsKey acc k0
      · rw [if_pos hc, ih]
        cases h : lookupLabel acc k with
        | some v => simp
        | none =>
            by_cases hk : k0 = k
            · subst hk
              unfold containsKey at hc
              rw [h] at hc
              simp at hc
            · simp [lookupLabel, hk]
      · rw [if_neg hc, ih, lookupLabel_append]
        cases h : lookupLabel acc k with
        | some v => simp
        | none =>
            by_cases hk : k0 = k
            · subst hk
              simp [lookupLabel]
            · simp [lookupLabel, hk]

/-- C4: The default-label merge is a deterministic pure function of the
caller-supplied labels, the configuration default map and the execution
context at call time: for every key, the result carries the caller-supplied
binding if present, otherwise the configuration default binding if present,
otherwise — for the key "plugin_id" only — the context's plugin id when
`include_plugin_id` is set and the context supplies one; caller-supplied keys
are never overwritten and no other key appears. -/
theorem C4_add_default_labels_merge (config : MetricsConfig) (ctx : Option Context)
    (labels : Labels) (k : String) :
    lookupLabel (add_default_labels config ctx labels) k =
      match lookupLabel labels k with
      | some v => some v
      | none =>
        match lookupLabel config.default_labels k with
        | some v => some v
        | none => if k = "plugin_id" then pluginIdOf config ctx else none := by
  have hl1 := mergeDefaults_lookup config.default_labels labels k
  have hl1p := mergeDefaults_lookup config.default_labels labels "plugin_id"
  unfold add_default_labels pluginIdOf
  by_cases hinc : config.include_plugin_id
  · rw [if_pos hinc, if_pos hinc]
    cases ctx with
    | none =>
        simp only [Option.bind]
        rw [hl1]
        cases h : lookupLabel labels k with
        | some v => rfl
        | none =>
            cases hd : lookupLabel config.default_labels k with
            | some v => rfl
            | none => simp
    | some c =>
        cases hp : c.plugin_id with
        | none =>
            simp only [Option.bind, hp]
            rw [hl1]
            cases h : lookupLabel labels k with
            | some v => rfl
            | none =>
                cases hd : lookupLabel config.default_labels k with
                | some v => rfl
                | none => simp
        | some pid =>
            simp only [Option.bind, hp]
            by_cases hc :
                containsKey
                  (List.foldl
                    (fun acc kv => if containsKey acc kv.1 then acc else acc ++ [(kv.1, kv.2)])
                    labels config.default_labels) "plugin_id"
            · rw [if_pos hc, hl1]
              have hc2 :
                  (lookupLabel
                    (List.foldl
                      (fun acc kv => if containsKey acc kv.1 then acc else acc ++ [(kv.1, kv.2)])
                      labels config.default_labels) "plugin_id").isSome = true := hc
              rw [hl1p] at hc2
              cases h : lookupLabel labels k with
              | some v => rfl
              | none =>
                  cases hd : lookupLabel config.default_labels k with
                  | some v => rfl
                  | none =>
                      by_cases hk : k = "plugin_id"
                      · subst hk
                        rw [h] at hc2
                        rw [hd] at hc2
                        simp at hc2
                      · simp [hk]
            · rw [if_neg hc, lookupLabel_append, hl1]
              cases h : lookupLabel labels k with
              | some v => rfl
              | none =>
                  cases hd : lookupLabel config.default_labels k with
                  | some v => rfl
                  | none =>
                      by_cases hk : k = "plugin_id"
                      · subst hk
                        simp [lookupLabel]
                      · simp [lookupLabel, hk, Ne.symm hk]
  · rw [if_neg hinc, if_neg hinc]
    rw [hl1]
    cases h : lookupLabel labels k with
    | some v => rfl
    | none =>
        cases hd : lookupLabel config.default_labels k with
        | some v => rfl
        | none => simp

/-- C2: For every timer, `histogram.record` is called at most once over the
timer's lifetime: on the explicit-stop path `stop` performs the one record and
the drop that ends `stop` performs none; on the implicit path the drop
performs the one record; after either path the timer holds no histogram
reference, so the other path is a no-op. -/
theorem C2_timer_records_exactly_once (h : DynHistogram) (n0 n1 n2 : Nat) :
    (((HistogramTimer.new n0 h).stop n1).2.2.length = 1
      ∧ ((HistogramTimer.new n0 h).stop n1).2.1.histogram = none
      ∧ ((((HistogramTimer.new n0 h).stop n1).2.1).drop n2).2 = []
      ∧ ((((HistogramTimer.new n0 h).stop n1).2.1).stop n2).2.2 = [])
    ∧ (((HistogramTimer.new n0 h).drop n1).2.length = 1
      ∧ ((HistogramTimer.new n0 h).drop n1).1.histogram = none
      ∧ ((((HistogramTimer.new n0 h).drop n1).1).drop n2).2 = []
      ∧ ((((HistogramTimer.new n0 h).drop n1).1).stop n2).2.2 = []) :=
  ⟨⟨rfl, rfl, rfl, rfl⟩, rfl, rfl, rfl, rfl⟩

/-- C3 (amended): `stop` consumes the timer, computes elapsed = now − start,
calls `histogram.record` exactly once with the elapsed time in seconds, and
returns `Ok(elapsed)` when the record call succeeds; when the record call
fails, the error is propagated and no duration is returned.  The timer it
leaves behind holds no histogram reference. -/
theorem C3_stop_semantics (h : DynHistogram) (n0 n1 : Nat) :
    (HistogramTimer.new n0 h).stop n1 =
      ((h.record (durationAsSecs (n1 - n0))).map fun _ => n1 - n0,
       { start := n0, histogram := none },
       [durationAsSecs (n1 - n0)]) := by
  unfold HistogramTimer.new HistogramTimer.stop
  cases hr : h.record (durationAsSecs (n1 - n0)) with
  | ok u => simp [hr, Except.map]
  | error e => simp [hr, Except.map]

/-- C3 counterexample: at the concrete input of a histogram whose `record`
fails, `stop` after 5 elapsed nanoseconds does not return the elapsed
duration — the record error is propagated instead — refuting "returns the
elapsed duration regardless of whether the record call succeeded". -/
theorem C3_counterexample :
    ((HistogramTimer.new 0 hFail).stop 5).1
        = Except.error (ObservabilityError.MetricsError "record failed")
      ∧ ((HistogramTimer.new 0 hFail).stop 5).1 ≠ Except.ok 5 := by
  refine ⟨rfl, fun hco => ?_⟩
  rw [show ((HistogramTimer.new 0 hFail).stop 5).1
        = Except.error (ObservabilityError.MetricsError "record failed") from rfl] at hco
  exact Except.noConfusion hco

/-- C1: For every `counter`/`gauge`/`histogram` call on the capability
registry, when the checker returns false the call fails with
`CapabilityError` and the inner registry is untouched (its state `s` is
returned unchanged — no side effect); when the checker itself fails, that
error is propagated unchanged and the inner registry is likewise untouched. -/
theorem C1_capability_fail_closed {σ κ γ η : Type}
    (reg : CapabilityMetricsRegistry σ κ γ η) (ctx : Option Context)
    (name description : String) (labels : Labels) (s : σ) :
    (reg.check_capability ctx = Except.ok false →
        reg.counter ctx name description labels s
          = (Except.error (ObservabilityError.CapabilityError "Missing metrics capability"), s)
        ∧ reg.gauge ctx name description labels s
          = (Except.error (ObservabilityError.CapabilityError "Missing metrics capability"), s)
        ∧ reg.histogram ctx name description labels s
          = (Except.error (ObservabilityError.CapabilityError "Missing metrics capability"), s))
    ∧ ∀ e : ObservabilityError, reg.check_capability ctx = Except.error e →
        reg.counter ctx name description labels s = (Except.error e, s)
        ∧ reg.gauge ctx name description labels s = (Except.error e, s)
        ∧ reg.histogram ctx name description labels s = (Except.error e, s) := by
  constructor
  · intro hck
    unfold CapabilityMetricsRegistry.counter CapabilityMetricsRegistry.gauge
      CapabilityMetricsRegistry.histogram
    rw [hck]
    exact ⟨rfl, rfl, rfl⟩
  · intro e hck
    unfold CapabilityMetricsRegistry.counter CapabilityMetricsRegistry.gauge
      CapabilityMetricsRegistry.histogram
    rw [hck]
    exact ⟨rfl, rfl, rfl⟩

/-- C1 witness: at a deny-all checker the `counter` call fails with the
capability error and the spy count stays 0; at a failing checker the checker's
own error comes back and the spy count stays 0. -/
theorem C1_witness :
    regDeny.check_capability none = Except.ok false
    ∧ regDeny.counter none "m" "d" [] 0
        = (Except.error (ObservabilityError.CapabilityError "Missing metrics capability"), 0)
    ∧ regErr.check_capability none
        = Except.error (ObservabilityError.MetricsError "checker failed")
    ∧ regErr.gauge none "m" "d" [] 0
        = (Except.error (ObservabilityError.MetricsError "checker failed"), 0) :=
  ⟨rfl,
   ((C1_capability_fail_closed regDeny none "m" "d" [] 0).1 rfl).1,
   rfl,
   (((C1_capability_fail_closed regErr none "m" "d" [] 0).2
       (ObservabilityError.MetricsError "checker failed") rfl).2).1⟩

/-- C9: When the capability check succeeds, `counter`/`gauge`/`histogram`
delegate to the inner registry with name, description and labels unchanged
and return exactly what the inner registry returns; the identity used for the
check is the context's plugin id, falling back to "unknown" when the context
or its plugin id is absent. -/
theorem C9_capability_allow_delegates {σ κ γ η : Type}
    (reg : CapabilityMetricsRegistry σ κ γ η) (ctx : Option Context)
    (name description : String) (labels : Labels) (s : σ) :
    (reg.check_capability ctx = Except.ok true →
        reg.counter ctx name description labels s = reg.inner.counter name description labels s
        ∧ reg.gauge ctx name description labels s = reg.inner.gauge name description labels s
        ∧ reg.histogram ctx name description labels s
            = reg.inner.histogram name description labels s)
    ∧ reg.check_capability ctx
        = reg.checker (resolvePluginId ctx) ObservabilityCapability.Metrics
    ∧ resolvePluginId none = "unknown"
    ∧ (∀ c : Context, c.plugin_id = none → resolvePluginId (some c) = "unknown")
    ∧ ∀ (c : Context) (pid : String), c.plugin_id = some pid →
        resolvePluginId (some c) = pid := by
  refine ⟨fun hck => ?_, rfl, rfl, fun c hc => ?_, fun c pid hc => ?_⟩
  · unfold CapabilityMetricsRegistry.counter CapabilityMetricsRegistry.gauge
      CapabilityMetricsRegistry.histogram
    rw [hck]
    exact ⟨rfl, rfl, rfl⟩
  · simp [resolvePluginId, hc]
  · simp [resolvePluginId, hc]

/-- C9 witness: at an allow-all checker with a context carrying plugin id
"plugin_a", the `counter` call returns exactly what the inner registry
returns. -/
theorem C9_witness :
    regAllow.check_capability (some { plugin_id := some "plugin_a" }) = Except.ok true
    ∧ regAllow.counter (some { plugin_id := some "plugin_a" }) "m" "d" [] 0
        = regAllow.inner.counter "m" "d" [] 0 :=
  ⟨rfl,
   ((C9_capability_allow_delegates regAllow (some { plugin_id := some "plugin_a" })
       "m" "d" [] 0).1 rfl).1⟩

theorem applyIncrements_value (vs : List Nat) (c : PrometheusCounter) :
    (applyIncrements c vs).value
      = List.foldl (fun a v => (a + v) % 2 ^ 64) c.value vs := by
  induction vs generalizing c with
  | nil => rfl
  | cons v rest ih =>
      have h := ih (c.increment v).2.1
      simpa [applyIncrements, PrometheusCounter.increment] using h

theorem foldl_wrap_sum (vs : List Nat) (a : Nat) :
    List.foldl (fun a v => (a + v) % 2 ^ 64) (a % 2 ^ 64) vs
      = (a + vs.sum) % 2 ^ 64 := by
  induction vs generalizing a with
  | nil => simp
  | cons v rest ih =>
      simp only [List.foldl, List.sum_cons]
      rw [Nat.mod_add_mod, ih (a + v), Nat.add_assoc]

/-- C5 (amended): For every finite sequence of `increment(amount)` calls on a
counter freshly created by `PrometheusCounter::new`, a subsequent `value()`
call returns the sum of all the amounts modulo `2 ^ 64` (the local cell is a
wrapping `AtomicU64`); the counter starts at 0. -/
theorem C5_counter_value_sums_increments (name description : String) (labels : Labels)
    (c : PrometheusCounter) (evs : List SinkEvent) (vs : List Nat)
    (hnew : PrometheusCounter.new name description labels = (Except.ok c, evs)) :
    (applyIncrements c vs).value = vs.sum % 2 ^ 64 := by
  have h1 := congrArg Prod.fst hnew
  simp only [PrometheusCounter.new] at h1
  injection h1 with h2
  have hv : c.value = 0 := by rw [← h2]
  rw [applyIncrements_value, hv]
  simpa using foldl_wrap_sum vs 0

/-- C5 witness: a fresh counter incremented by 2 then 3 reads value 5. -/
theorem C5_witness :
    PrometheusCounter.new "requests_total" "Total requests" []
        = (Except.ok pc0, [SinkEvent.describeCounter "requests_total" "Total requests"])
    ∧ (applyIncrements pc0 [2, 3]).value = [2, 3].sum % 2 ^ 64 :=
  ⟨rfl,
   C5_counter_value_sums_increments "requests_total" "Total requests" [] pc0
     [SinkEvent.describeCounter "requests_total" "Total requests"] [2, 3] rfl⟩

/-- C5 counterexample: on the fresh counter produced by
`PrometheusCounter::new`, the increments `[2 ^ 63, 2 ^ 63]` leave `value()`
at 0, not at their sum `2 ^ 64`: `fetch_add` wraps, so "returns the sum of
all the amounts" fails as stated. -/
theorem C5_counterexample :
    (PrometheusCounter.new "requests_total" "Total requests" []).1 = Except.ok pc0
    ∧ (applyIncrements pc0 [2 ^ 63, 2 ^ 63]).value ≠ [2 ^ 63, 2 ^ 63].sum := by
  refine ⟨rfl, ?_⟩
  rw [show (applyIncrements pc0 [2 ^ 63, 2 ^ 63]).value
        = ((0 + 2 ^ 63) % 2 ^ 64 + 2 ^ 63) % 2 ^ 64 from rfl]
  simp only [List.sum_cons, List.sum_nil]
  norm_num

/-- C8 (amended): a real-backend counter value is non-decreasing across an
`increment(amount)` call as long as the running total does not overflow the
64-bit cell (`value + amount < 2 ^ 64`); on overflow `fetch_add` wraps and
the observed value can decrease. -/
theorem C8_counter_monotone (c : PrometheusCounter) (v : Nat)
    (hno : c.value + v < 2 ^ 64) :
    c.value ≤ ((c.increment v).2.1).value := by
  simp only [PrometheusCounter.increment]
  rw [Nat.mod_eq_of_lt hno]
  exact Nat.le_add_right _ _

/-- C8 witness: incrementing the fresh counter by 5 does not decrease its
value. -/
theorem C8_witness :
    pc0.value + 5 < 2 ^ 64 ∧ pc0.value ≤ ((pc0.increment 5).2.1).value :=
  ⟨by norm_num [pc0], C8_counter_monotone pc0 5 (by norm_num [pc0])⟩

/-- C8 counterexample: starting from the fresh counter and incrementing by
`2 ^ 63` twice, the value observed after the second call (0) is strictly
below the value observed before it (`2 ^ 63`): the claim "value after any
increment is ≥ value before" fails at u64 overflow. -/
theorem C8_counterexample :
    ((applyIncrements pc0 [2 ^ 63]).increment (2 ^ 63)).2.1.value
      < (applyIncrements pc0 [2 ^ 63]).value := by
  rw [show ((applyIncrements pc0 [2 ^ 63]).increment (2 ^ 63)).2.1.value
        = ((0 + 2 ^ 63) % 2 ^ 64 + 2 ^ 63) % 2 ^ 64 from rfl,
      show (applyIncrements pc0 [2 ^ 63]).value = (0 + 2 ^ 63) % 2 ^ 64 from rfl]
  norm_num

/-- C6: When `prometheus_enabled` is set and `prometheus_endpoint` is a
nonempty string that fails to parse as a network address, real-backend
construction (`PrometheusMetricsRegistry::new`) returns the configuration
error for the invalid endpoint — no registry and hence no metric handles are
produced — and that error classifies as the spec's ConfigurationError kind. -/
theorem C6_malformed_endpoint_fails (config : MetricsConfig)
    (installResult : Except String Unit) (e : String)
    (hen : config.prometheus_enabled = true)
    (hne : ¬ config.prometheus_endpoint = "")
    (hparse : parseSocketAddr config.prometheus_endpoint = Except.error e) :
    PrometheusMetricsRegistry.new config installResult
        = Except.error
            (ObservabilityError.MetricsError ("Invalid Prometheus endpoint: " ++ e))
    ∧ (ObservabilityError.MetricsError ("Invalid Prometheus endpoint: " ++ e)).kind
        = ErrorKind.ConfigurationError := by
  constructor
  · unfold PrometheusMetricsRegistry.new PrometheusMetricsRegistry.initialize
    simp [hen, hne, hparse]
  · have hd : ("Invalid Prometheus endpoint: " ++ e).data
        = "Invalid Prometheus endpoint:".data ++ (" " ++ e).data := by
      rw [show ("Invalid Prometheus endpoint: " : String)
            = "Invalid Prometheus endpoint:" ++ " " from rfl,
          String.data_append, String.data_append, String.data_append,
          List.append_assoc]
    have hpre : ("Invalid Prometheus endpoint:".data).isPrefixOf
        ("Invalid Prometheus endpoint:".data ++ (" " ++ e).data) = true := by
      rw [List.isPrefixOf_iff_prefix]
      exact List.prefix_append _ _
    simp [ObservabilityError.kind, hd, hpre]

/-- C6 witness: at the concrete malformed endpoint "not-an-address",
construction fails with the invalid-endpoint error. -/
theorem C6_witness :
    cfgBadEndpoint.prometheus_enabled = true
    ∧ ¬ cfgBadEndpoint.prometheus_endpoint = ""
    ∧ parseSocketAddr cfgBadEndpoint.prometheus_endpoint
        = Except.error "invalid socket address syntax"
    ∧ PrometheusMetricsRegistry.new cfgBadEndpoint (Except.ok ())
        = Except.error (ObservabilityError.MetricsError
            ("Invalid Prometheus endpoint: " ++ "invalid socket address syntax"))
    ∧ (ObservabilityError.MetricsError
          ("Invalid Prometheus endpoint: " ++ "invalid socket address syntax")).kind
        = ErrorKind.ConfigurationError := by
  have h := C6_malformed_endpoint_fails cfgBadEndpoint (Except.ok ())
    "invalid socket address syntax" rfl (by decide) rfl
  exact ⟨rfl, by decide, rfl, h.1, h.2⟩

/-- C7: For the no-op backend, every counter/gauge/histogram creation call
succeeds; every mutation (counter increment, gauge set/increment/decrement,
histogram record) returns success and leaves the handle untouched; and after
every sequence of mutations `value()` still returns the kind's zero — 0 for
counters and 0.0 for gauges. -/
theorem C7_noop_backend_inert (r : NoopMetricsRegistry)
    (name description : String) (labels : Labels)
    (cvs : List Nat) (gops : List GaugeOp) (v : Nat) (q : ℚ) :
    (r.counter name description labels
        = Except.ok { name := name, description := description, labels := labels }
      ∧ r.gauge name description labels
        = Except.ok { name := name, description := description, labels := labels }
      ∧ r.histogram name description labels
        = Except.ok { name := name, description := description, labels := labels })
    ∧ (∀ c : NoopCounter,
        c.increment v = Except.ok ()
        ∧ (c.apply v).2 = c
        ∧ (NoopCounter.applyAll c cvs).val = 0)
    ∧ (∀ g : NoopGauge,
        g.set q = Except.ok ()
        ∧ g.increment q = Except.ok ()
        ∧ g.decrement q = Except.ok ()
        ∧ (∀ op : GaugeOp, (g.apply op).1 = Except.ok () ∧ (g.apply op).2 = g)
        ∧ (NoopGauge.applyAll g gops).val = 0)
    ∧ (∀ h : NoopHistogram, h.record q = Except.ok ()) := by
  refine ⟨⟨rfl, rfl, rfl⟩, fun c => ⟨rfl, rfl, rfl⟩,
    fun g => ⟨rfl, rfl, rfl, fun op => ?_, rfl⟩, fun h => rfl⟩
  cases op <;> exact ⟨rfl, rfl⟩

/-- C10: Every mutation on a real-backend metric handle is infallible:
`PrometheusCounter::increment`, `PrometheusGauge::set`/`increment`/
`decrement` and `PrometheusHistogram::record` return `Ok(())` for every
input value; their error branch is never produced. -/
theorem C10_prometheus_mutations_infallible (c : PrometheusCounter)
    (g : PrometheusGauge) (h : PrometheusHistogram) (v : Nat) (q : ℚ) :
    (c.increment v).1 = Except.ok ()
    ∧ (g.set q).1 = Except.ok ()
    ∧ (g.increment q).1 = Except.ok ()
    ∧ (g.decrement q).1 = Except.ok ()
    ∧ (h.record q).1 = Except.ok () :=
  ⟨rfl, rfl, rfl, rfl, rfl⟩
